import Mathlib

/-!
Shallow embedding of the image-forgery-detector core (src/forensics.py) and
verification of its stated properties.

The external collaborators (PIL decode, exifread, the exiftool subprocess,
cv2.imread, the JPEG re-encode of the ELA step) are modelled by an
environment record `Env` that fixes, for the one image path of a run, what
each external call returns.  Python dictionaries are represented as
association lists; the ad hoc `{"error": msg}` failure dictionaries of the
source are kept as-is where downstream code inspects them as dictionaries
(`extract_basic_metadata`, `extract_exif_metadata`) and as `Except.error`
where downstream code only distinguishes the two shapes.
-/

deriving instance DecidableEq for Except

namespace Forensics

/-- A successfully decoded image: size, the PIL `info` mapping of basic
attributes, and a per-pixel intensity grid (rows of intensities). -/
structure ImageData where
  width : Nat
  height : Nat
  info : List (String × String)
  pixels : List (List Nat)
deriving DecidableEq

/-- Result of the `subprocess.run` call on exiftool. -/
structure ToolRun where
  returncode : Int
  stdout : String
  stderr : String
deriving DecidableEq

/-- The behaviour of the external world for the single image path of one
run: what the decode, the EXIF reader, the exiftool subprocess, the
grayscale read and the ELA save/reopen each return. -/
structure Env where
  decode : Except String ImageData
  exifRaw : Except String (List (String × String))
  toolRaw : Except String ToolRun
  gray : Option (List (List Nat))
  elaSave : Nat → Except String Unit
  elaReopen : Except String (List (List Nat))

/-- Python dictionary key membership (`k in d`) on an association list. -/
def dictContains (d : List (String × String)) (k : String) : Bool :=
  (d.lookup k).isSome

/-- Python dictionary access `d[k]`, defaulting to the empty string. -/
def dictGet (d : List (String × String)) (k : String) : String :=
  (d.lookup k).getD ""

/-- `open_image` of the source: a decoded image, or the error dictionary
`{"error": "Failed to open image: ..."}`, modelled as `Except.error` with
that message. -/
def open_image (env : Env) : Except String ImageData :=
  match env.decode with
  | .ok img => .ok img
  | .error e => .error ("Failed to open image: " ++ e)

/-- `extract_basic_metadata` of the source: `img.info` on success, and the
error dictionary of `open_image` on failure (kept as an association list,
since downstream code probes it with dictionary membership). -/
def extract_basic_metadata (env : Env) : List (String × String) :=
  match open_image env with
  | .ok img => img.info
  | .error e => [("error", e)]

/-- `extract_exif_metadata` of the source: the exifread tag dictionary, or
the error dictionary `{"error": "Failed to read EXIF metadata: ..."}`. -/
def extract_exif_metadata (env : Env) : List (String × String) :=
  match env.exifRaw with
  | .ok tags => tags
  | .error e => [("error", "Failed to read EXIF metadata: " ++ e)]

/-- `extract_exiftool_metadata` of the source: the decoded stdout string on
a zero exit code; otherwise the error dictionary (holding stderr, or the
exception message), modelled as `Except.error`. -/
def extract_exiftool_metadata (env : Env) : Except String String :=
  match env.toolRaw with
  | .error e => .error ("Failed to run ExifTool: " ++ e)
  | .ok r => if r.returncode ≠ 0 then .error r.stderr else .ok r.stdout

/-- Containment of one character list in another: some suffix of the
haystack starts with the needle. -/
def listContainsSub (needle : List Char) : List Char → Bool
  | [] => needle.isEmpty
  | c :: rest => needle.isPrefixOf (c :: rest) || listContainsSub needle rest

/-- Substring containment, `needle in hay` on Python strings. -/
def strContainsSub (hay needle : String) : Bool :=
  listContainsSub needle.data hay.data

/-- Python `needle in x` where `x` is either the exiftool stdout string
(substring containment) or the `{"error": msg}` dictionary (key lookup on
the one-key dictionary, i.e. equality with the key "error"). -/
def pyInTool (needle : String) (t : Except String String) : Bool :=
  match t with
  | .ok s => strContainsSub s needle
  | .error _ => needle == "error"

/-- The fixed reference list of common screen resolutions. -/
def common_resolutions : List (Nat × Nat) :=
  [(1920, 1080), (1366, 768), (1280, 720), (1440, 900),
   (1680, 1050), (1280, 800), (2560, 1440), (3840, 2160)]

/-- The tolerance test of the source,
`width >= res[0]*0.9 and width <= res[0]*1.1` (and the same for height),
written with exact rational arithmetic (multiplied through by 10).  The
source evaluates the bounds in double precision; the two agree except
possibly when a bound rounds across an integer, and no claim below is
decided at such a boundary. -/
def resolutionMatches (width height : Nat) (res : Nat × Nat) : Bool :=
  (10 * width ≥ 9 * res.1 && 10 * width ≤ 11 * res.1)
    && (10 * height ≥ 9 * res.2 && 10 * height ≤ 11 * res.2)

/-- `check_image_for_screenshot` of the source.  On decode failure the
error dictionary is returned (modelled as `Except.error` carrying the
message).  Otherwise: first-matching-resolution rule, then the EXIF rule
`if not exif_metadata or ('Image' not in exif_metadata)` — dictionary
emptiness and exact key membership of the key "Image" — then the
original-image fallback. -/
def check_image_for_screenshot (env : Env) : Except String (String × Nat) :=
  match open_image env with
  | .error e => .error e
  | .ok img =>
    if common_resolutions.any (resolutionMatches img.width img.height) then
      .ok ("Possible Screenshot (Common Screen Resolution)", 35)
    else
      let exif_metadata := extract_exif_metadata env
      if exif_metadata.isEmpty || !(dictContains exif_metadata "Image") then
        .ok ("Possible Screenshot (Missing or Minimal EXIF Data)", 50)
      else
        .ok ("Original Image (Not a Screenshot)", 0)

/-- `check_image_for_forgery` of the source: starts from 0, adds 40 if the
basic metadata has a truthy "Software" entry, adds 40 if the exiftool
result contains "Inkscape" or "Photoshop" (the source also computes the
EXIF metadata here but never uses it). -/
def check_image_for_forgery (env : Env) : Nat :=
  let basic_metadata := extract_basic_metadata env
  let exiftool_metadata := extract_exiftool_metadata env
  let forgery_score : Nat := 0
  let forgery_score :=
    if dictContains basic_metadata "Software"
        && (dictGet basic_metadata "Software" != "") then
      forgery_score + 40
    else forgery_score
  let forgery_score :=
    if pyInTool "Inkscape" exiftool_metadata
        || pyInTool "Photoshop" exiftool_metadata then
      forgery_score + 40
    else forgery_score
  forgery_score

/-- The condition of the Software check of `check_image_for_forgery`
(source line 109), named for use in theorem statements. -/
def softwareFlag (env : Env) : Bool :=
  dictContains (extract_basic_metadata env) "Software"
    && (dictGet (extract_basic_metadata env) "Software" != "")

/-- The condition of the Inkscape/Photoshop check of
`check_image_for_forgery` (source line 113), named for use in theorem
statements. -/
def toolFlag (env : Env) : Bool :=
  pyInTool "Inkscape" (extract_exiftool_metadata env)
    || pyInTool "Photoshop" (extract_exiftool_metadata env)

/-! ### Clone / edge detection

`detect_clone_patterns` calls `cv2.Canny(image, 100, 200)` on the grayscale
read; cv2 is an external library whose code is not part of this repository,
so the edge detector itself is modelled from the spec. -/

/-- Pixel access into a row-major intensity grid, 0 outside the grid. -/
def pix (g : List (List Nat)) (r c : Nat) : Nat :=
  (g.getD r []).getD c 0

/-- Modelled from the spec: the discrete gradient magnitude used by the
Canny-style detector of section 4.4 (cv2.Canny itself is external code not
in src).  Central differences in each axis, summed in absolute value;
indices clamp at the border. -/
def gradMag (g : List (List Nat)) (r c : Nat) : Nat :=
  Nat.dist (pix g (r + 1) c) (pix g (r - 1) c)
    + Nat.dist (pix g r (c + 1)) (pix g r (c - 1))

/-- Gradient magnitude above the high threshold: a strong edge pixel. -/
def strongAt (g : List (List Nat)) (high : Nat) (r c : Nat) : Bool :=
  decide (gradMag g r c > high)

/-- Gradient magnitude above the low threshold: a candidate edge pixel. -/
def weakAt (g : List (List Nat)) (low : Nat) (r c : Nat) : Bool :=
  decide (gradMag g r c > low)

/-- The 8-neighbourhood of a cell (clamped at 0 by Nat subtraction). -/
def neighborCells (r c : Nat) : List (Nat × Nat) :=
  [(r - 1, c - 1), (r - 1, c), (r - 1, c + 1), (r, c - 1),
   (r, c + 1), (r + 1, c - 1), (r + 1, c), (r + 1, c + 1)]

/-- One step of hysteresis linking: a cell is marked if it was marked, or
it is above the low threshold and touches a marked cell. -/
def hysteresisExpand (g : List (List Nat)) (low : Nat)
    (f : Nat → Nat → Bool) : Nat → Nat → Bool :=
  fun r c =>
    f r c || (weakAt g low r c && (neighborCells r c).any fun p => f p.1 p.2)

/-- Modelled from the spec: the marked-edge predicate of the Canny-style
detector of section 4.4 — strong pixels, closed under hysteresis linking
through low-threshold pixels (iterated to the size of the grid, which
bounds any linking chain). -/
def cannyMark (g : List (List Nat)) (low high : Nat) : Nat → Nat → Bool :=
  (hysteresisExpand g low)^[g.length * (g.getD 0 []).length] (strongAt g high)

/-- Modelled from the spec: the edge map of the Canny-style detector,
binary 0/255 cells as cv2 produces, same height and width as the source. -/
def canny (g : List (List Nat)) (low high : Nat) : List (List Nat) :=
  (List.range g.length).map fun r =>
    (List.range (g.getD 0 []).length).map fun c =>
      if cannyMark g low high r c then 255 else 0

/-- `detect_clone_patterns` of the source: the grayscale read (cv2.imread
with flag 0) either fails, giving the error dictionary, or feeds
`cv2.Canny(image, 100, 200)`. -/
def detect_clone_patterns (env : Env) : Except String (List (List Nat)) :=
  match env.gray with
  | none => .error "Failed to read the image for clone detection."
  | some image => .ok (canny image 100 200)

/-! ### Error level analysis -/

/-- A file-system effect of the ELA step. -/
inductive FileOp where
  | save (path : String)
  | openFile (path : String)
  | delete (path : String)
deriving DecidableEq

/-- The path an operation touches. -/
def FileOp.path : FileOp → String
  | .save p => p
  | .openFile p => p
  | .delete p => p

/-- Whether a trace contains a delete operation. -/
def hasDelete (ops : List FileOp) : Bool :=
  ops.any fun op => match op with
    | FileOp.delete _ => true
    | _ => false

/-- Per-pixel absolute difference of two grids (`ImageChops.difference`). -/
def absDiffGrid (a b : List (List Nat)) : List (List Nat) :=
  a.zipWith (fun ra rb => ra.zipWith Nat.dist rb) b

/-- `perform_ela_analysis` of the source, with the file operations it
performs recorded in order.  The temporary path is the string literal
`"ela_image.jpg"` of line 62; the save and the reopen can each fail (the
`try` block), and no exit path removes the file. -/
def perform_ela_analysis (env : Env) (quality : Nat) :
    List FileOp × Except String (List (List Nat)) :=
  match open_image env with
  | .error e => ([], .error e)
  | .ok original =>
    let ela_path := "ela_image.jpg"
    match env.elaSave quality with
    | .error e => ([FileOp.save ela_path], .error ("Failed to perform ELA: " ++ e))
    | .ok _ =>
      match env.elaReopen with
      | .error e =>
        ([FileOp.save ela_path, FileOp.openFile ela_path],
         .error ("Failed to perform ELA: " ++ e))
      | .ok ela_image =>
        ([FileOp.save ela_path, FileOp.openFile ela_path],
         .ok (absDiffGrid original.pixels ela_image))

/-! ### Orchestrator -/

/-- The data `analyze_image` computes for one run. -/
structure Report where
  screenshot_result : String
  screenshot_score : Nat
  forgery_score : Nat
  total_forgery_score : Nat
  clone_edges : Except String (List (List Nat))
  ela_result : Except String (List (List Nat))
deriving DecidableEq

/-- The aggregation of lines 132 and 133 of the source: the sum of the two
sub-scores, capped at 100. -/
def aggregate_scores (forgery_score screenshot_score : Nat) : Nat :=
  min (forgery_score + screenshot_score) 100

/-- `analyze_image` of the source.  When the screenshot check yields the
error dictionary, the tuple unpacking
`screenshot_result, screenshot_score = ...` of line 124 raises a
ValueError (a one-key dictionary iterates as one key), so the run aborts
there with a single top-level failure; otherwise the sub-scores are
aggregated with `min(..., 100)` and the two pixel transforms run. -/
def analyze_image (env : Env) : Except String Report :=
  match check_image_for_screenshot env with
  | .error _ =>
    .error "ValueError: not enough values to unpack (expected 2, got 1)"
  | .ok (screenshot_result, screenshot_score) =>
    let forgery_score := check_image_for_forgery env
    let total_forgery_score := aggregate_scores forgery_score screenshot_score
    .ok { screenshot_result := screenshot_result,
          screenshot_score := screenshot_score,
          forgery_score := forgery_score,
          total_forgery_score := total_forgery_score,
          clone_edges := detect_clone_patterns env,
          ela_result := (perform_ela_analysis env 90).2 }

/-! ### Concrete environments used by witnesses and counterexamples -/

/-- A successful exiftool run with empty output. -/
def rc0 : ToolRun := { returncode := 0, stdout := "", stderr := "" }

/-- A 100 by 100 image with no basic attributes. -/
def plainImage : ImageData :=
  { width := 100, height := 100, info := [], pixels := [[0]] }

/-- A run on a plain 100 by 100 image: empty EXIF, empty tool output,
failing grayscale read and failing ELA reopen. -/
def envPlain : Env :=
  { decode := .ok plainImage, exifRaw := .ok [], toolRaw := .ok rc0,
    gray := none, elaSave := fun _ => .ok (), elaReopen := .error "no file" }

/-- The report `analyze_image` produces on `envPlain`. -/
def reportPlain : Report :=
  { screenshot_result := "Possible Screenshot (Missing or Minimal EXIF Data)",
    screenshot_score := 50, forgery_score := 0, total_forgery_score := 50,
    clone_edges := .error "Failed to read the image for clone detection.",
    ela_result := .error "Failed to perform ELA: no file" }

/-- A run on a 1920 by 1080 image carrying full EXIF data. -/
def env1920 : Env :=
  { decode := .ok { width := 1920, height := 1080,
                    info := [("dpi", "72")], pixels := [[0]] },
    exifRaw := .ok [("Image Make", "Canon"), ("Image", "group")],
    toolRaw := .ok rc0, gray := none,
    elaSave := fun _ => .ok (), elaReopen := .error "no file" }

/-- A run whose image decode fails. -/
def envDecodeFail : Env :=
  { decode := .error "corrupt", exifRaw := .ok [], toolRaw := .ok rc0,
    gray := none, elaSave := fun _ => .ok (), elaReopen := .error "no file" }

/-- A second failing decode, with every other component different from
`envDecodeFail`, to exhibit that nothing else influences the outcome. -/
def envDecodeFailB : Env :=
  { decode := .error "cannot identify image file",
    exifRaw := .ok [("Image Make", "Canon")],
    toolRaw := .ok { returncode := 0, stdout := "Photoshop", stderr := "" },
    gray := some [[0]], elaSave := fun _ => .ok (), elaReopen := .ok [[0]] }

/-- A run whose exiftool subprocess raises. -/
def envToolFail : Env :=
  { decode := .ok plainImage, exifRaw := .ok [],
    toolRaw := .error "exiftool not found", gray := none,
    elaSave := fun _ => .ok (), elaReopen := .error "no file" }

/-- A run whose exiftool exits nonzero with "Inkscape" in its stderr. -/
def envToolErrTxt : Env :=
  { decode := .ok plainImage, exifRaw := .ok [],
    toolRaw := .ok { returncode := 1, stdout := "",
                     stderr := "Inkscape error: failed" },
    gray := none, elaSave := fun _ => .ok (), elaReopen := .error "no file" }

/-- A run with a truthy Software attribute and clean tool output. -/
def envSoftware : Env :=
  { decode := .ok { width := 100, height := 100,
                    info := [("Software", "GIMP 2.10")], pixels := [[0]] },
    exifRaw := .ok [], toolRaw := .ok rc0, gray := none,
    elaSave := fun _ => .ok (), elaReopen := .error "no file" }

/-- A run with a truthy Software attribute and "Photoshop" in the tool
output. -/
def envBoth : Env :=
  { decode := .ok { width := 100, height := 100,
                    info := [("Software", "Adobe Photoshop 2023")],
                    pixels := [[0]] },
    exifRaw := .ok [],
    toolRaw := .ok { returncode := 0,
                     stdout := "Creator Tool : Adobe Photoshop", stderr := "" },
    gray := none, elaSave := fun _ => .ok (), elaReopen := .error "no file" }

/-- A run whose EXIF extraction succeeds with "Image"-group tags
("Image Make", "Image Model") but no key exactly equal to "Image". -/
def envC2 : Env :=
  { decode := .ok plainImage,
    exifRaw := .ok [("Image Make", "Canon"), ("Image Model", "EOS 5D")],
    toolRaw := .ok rc0, gray := none,
    elaSave := fun _ => .ok (), elaReopen := .error "no file" }

/-- A run whose EXIF dictionary holds a key exactly equal to "Image". -/
def envC2Exact : Env :=
  { decode := .ok plainImage,
    exifRaw := .ok [("Image", "group"), ("Image Make", "Canon")],
    toolRaw := .ok rc0, gray := none,
    elaSave := fun _ => .ok (), elaReopen := .error "no file" }

/-- An ELA run that completes: decode, save and reopen all succeed. -/
def envE1 : Env :=
  { decode := .ok plainImage, exifRaw := .ok [], toolRaw := .ok rc0,
    gray := none, elaSave := fun _ => .ok (), elaReopen := .ok [[0]] }

/-- An ELA run on a different image whose save fails (early error exit). -/
def envE2 : Env :=
  { decode := .ok { width := 5, height := 5, info := [], pixels := [[7]] },
    exifRaw := .ok [], toolRaw := .ok rc0, gray := none,
    elaSave := fun _ => .error "disk full", elaReopen := .error "no file" }

/-- A uniform all-black 2 by 2 grayscale source. -/
def gC9 : List (List Nat) := [[0, 0], [0, 0]]

/-- A run whose grayscale read yields the uniform black source `gC9`. -/
def envC9 : Env :=
  { decode := .ok plainImage, exifRaw := .ok [], toolRaw := .ok rc0,
    gray := some gC9, elaSave := fun _ => .ok (), elaReopen := .error "no file" }

/-! ### Shared lemmas -/

theorem check_image_for_forgery_eq (env : Env) :
    check_image_for_forgery env =
      (if softwareFlag env then 40 else 0) + (if toolFlag env then 40 else 0) := by
  unfold check_image_for_forgery softwareFlag toolFlag
  by_cases h1 : dictContains (extract_basic_metadata env) "Software"
      && (dictGet (extract_basic_metadata env) "Software" != "") <;>
    by_cases h2 : pyInTool "Inkscape" (extract_exiftool_metadata env)
      || pyInTool "Photoshop" (extract_exiftool_metadata env) <;>
    simp [h1, h2]

theorem analyze_image_ok_fields (env : Env) (r : Report)
    (h : analyze_image env = .ok r) :
    r.forgery_score = check_image_for_forgery env
      ∧ r.total_forgery_score = aggregate_scores r.forgery_score r.screenshot_score := by
  unfold analyze_image at h
  revert h
  cases check_image_for_screenshot env with
  | error e => intro h; exact Except.noConfusion h
  | ok p =>
    obtain ⟨l, s⟩ := p
    intro h
    cases h
    exact ⟨rfl, rfl⟩

/-! ### The claims -/

/-- C1: every report produced by a run has total forgery probability equal
to min(100, screenshot score + forgery score); the aggregation is
monotonically non-decreasing in each sub-score, and the total never
exceeds 100 (non-negativity is immediate in ℕ). -/
theorem total_score_aggregation (env : Env) (r : Report)
    (h : analyze_image env = .ok r) :
    r.total_forgery_score = min 100 (r.screenshot_score + r.forgery_score)
      ∧ r.total_forgery_score ≤ 100
      ∧ (∀ fs ss ss' : ℕ, ss ≤ ss' →
          aggregate_scores fs ss ≤ aggregate_scores fs ss')
      ∧ (∀ fs fs' ss : ℕ, fs ≤ fs' →
          aggregate_scores fs ss ≤ aggregate_scores fs' ss) := by
  obtain ⟨-, htot⟩ := analyze_image_ok_fields env r h
  refine ⟨?_, ?_, ?_, ?_⟩
  · rw [htot]; unfold aggregate_scores; omega
  · rw [htot]; unfold aggregate_scores; omega
  · intro fs ss ss' hle; unfold aggregate_scores; omega
  · intro fs fs' ss hle; unfold aggregate_scores; omega

theorem total_score_aggregation_witness :
    reportPlain.total_forgery_score
        = min 100 (reportPlain.screenshot_score + reportPlain.forgery_score)
      ∧ reportPlain.total_forgery_score ≤ 100 :=
  ⟨(total_score_aggregation envPlain reportPlain (by decide)).1,
   (total_score_aggregation envPlain reportPlain (by decide)).2.1⟩

/-- C5: an image of exactly 1920 by 1080 is classified by the resolution
rule with score 35, for every EXIF extraction outcome (the environment is
unconstrained apart from the decode). -/
theorem screenshot_at_1920_1080 (env : Env) (img : ImageData)
    (hdec : env.decode = .ok img)
    (hw : img.width = 1920) (hh : img.height = 1080) :
    check_image_for_screenshot env =
      .ok ("Possible Screenshot (Common Screen Resolution)", 35) := by
  unfold check_image_for_screenshot open_image
  rw [hdec]
  have hany : common_resolutions.any (resolutionMatches img.width img.height)
      = true := by rw [hw, hh]; decide
  simp [hany]

theorem screenshot_at_1920_1080_witness :
    check_image_for_screenshot env1920 =
      .ok ("Possible Screenshot (Common Screen Resolution)", 35) :=
  screenshot_at_1920_1080 env1920
    { width := 1920, height := 1080, info := [("dpi", "72")], pixels := [[0]] }
    rfl rfl rfl

/-- C6: when the image decodes, the EXIF extraction fails, and the
resolution matches no reference entry, the classifier returns the
missing-EXIF verdict with score 50 instead of propagating the failure. -/
theorem screenshot_exif_failure_scores_50 (env : Env) (img : ImageData)
    (m : String) (hdec : env.decode = .ok img)
    (hres : common_resolutions.any (resolutionMatches img.width img.height) = false)
    (hexif : env.exifRaw = .error m) :
    check_image_for_screenshot env =
      .ok ("Possible Screenshot (Missing or Minimal EXIF Data)", 50) := by
  unfold check_image_for_screenshot open_image
  rw [hdec]
  have hexifd : extract_exif_metadata env
      = [("error", "Failed to read EXIF metadata: " ++ m)] := by
    unfold extract_exif_metadata; rw [hexif]
  simp [hres, hexifd, dictContains, List.lookup]

theorem screenshot_exif_failure_scores_50_witness :
    check_image_for_screenshot
        { decode := .ok plainImage, exifRaw := .error "bad marker",
          toolRaw := .ok rc0, gray := none,
          elaSave := fun _ => .ok (), elaReopen := .error "no file" } =
      .ok ("Possible Screenshot (Missing or Minimal EXIF Data)", 50) :=
  screenshot_exif_failure_scores_50 _ plainImage "bad marker" rfl (by decide) rfl

/-- C4: the forgery score is exactly 0 when neither check fires, exactly 40
when exactly one fires, and exactly 80 when both fire; the two checks are
the Software-attribute condition and the Inkscape/Photoshop condition of
the source, independent and additive. -/
theorem forgery_score_cases (env : Env) :
    (softwareFlag env = false → toolFlag env = false →
      check_image_for_forgery env = 0)
    ∧ (softwareFlag env = true → toolFlag env = false →
      check_image_for_forgery env = 40)
    ∧ (softwareFlag env = false → toolFlag env = true →
      check_image_for_forgery env = 40)
    ∧ (softwareFlag env = true → toolFlag env = true →
      check_image_for_forgery env = 80) := by
  refine ⟨?_, ?_, ?_, ?_⟩ <;>
    · intro h1 h2
      rw [check_image_for_forgery_eq, h1, h2]
      rfl

theorem forgery_score_cases_witness :
    check_image_for_forgery envPlain = 0
      ∧ check_image_for_forgery envSoftware = 40
      ∧ check_image_for_forgery envBoth = 80 :=
  ⟨(forgery_score_cases envPlain).1 (by decide) (by decide),
   (forgery_score_cases envSoftware).2.1 (by decide) (by decide),
   (forgery_score_cases envBoth).2.2.2 (by decide) (by decide)⟩

/-- C7: when the basic-attribute extraction failed or returned an empty
mapping the Software check contributes 0, and when the tool extraction
failed the Inkscape/Photoshop check contributes 0; in each case the scorer
still returns the other contribution alone (it is total by construction,
returning ℕ). -/
theorem forgery_failures_contribute_zero (env : Env) :
    ((∃ e, env.decode = Except.error e) ∨ extract_basic_metadata env = [] →
      check_image_for_forgery env = if toolFlag env then 40 else 0)
    ∧ (∀ m, extract_exiftool_metadata env = Except.error m →
      check_image_for_forgery env = if softwareFlag env then 40 else 0) := by
  constructor
  · intro hbasic
    have hsw : softwareFlag env = false := by
      unfold softwareFlag
      rcases hbasic with ⟨e, he⟩ | hempty
      · have hb : extract_basic_metadata env
            = [("error", "Failed to open image: " ++ e)] := by
          unfold extract_basic_metadata open_image; rw [he]
        rw [hb]; simp [dictContains, List.lookup]
      · rw [hempty]; simp [dictContains, List.lookup]
    rw [check_image_for_forgery_eq, hsw]
    simp
  · intro m hm
    have htl : toolFlag env = false := by
      unfold toolFlag; rw [hm]; rfl
    rw [check_image_for_forgery_eq, htl]
    simp

theorem forgery_failures_contribute_zero_witness :
    check_image_for_forgery envDecodeFail
        = (if toolFlag envDecodeFail then 40 else 0)
      ∧ check_image_for_forgery envToolFail
        = (if softwareFlag envToolFail then 40 else 0) :=
  ⟨(forgery_failures_contribute_zero envDecodeFail).1 (Or.inl ⟨"corrupt", rfl⟩),
   (forgery_failures_contribute_zero envToolFail).2
     ("Failed to run ExifTool: " ++ "exiftool not found") rfl⟩

/-- C10: when the tool extraction yields the error dictionary, the Python
membership test is a key lookup on that one-key dictionary, not a substring
search of the message: "Inkscape" and "Photoshop" never match (only the
literal key "error" does), so failure text cannot add 40 and the forgery
score is the Software contribution alone. -/
theorem tool_failure_is_key_lookup (env : Env) (m : String)
    (hm : extract_exiftool_metadata env = Except.error m) :
    pyInTool "Inkscape" (extract_exiftool_metadata env) = false
      ∧ pyInTool "Photoshop" (extract_exiftool_metadata env) = false
      ∧ pyInTool "error" (extract_exiftool_metadata env) = true
      ∧ check_image_for_forgery env = if softwareFlag env then 40 else 0 := by
  have htl : toolFlag env = false := by
    unfold toolFlag; rw [hm]; rfl
  refine ⟨by rw [hm]; rfl, by rw [hm]; rfl, by rw [hm]; rfl, ?_⟩
  rw [check_image_for_forgery_eq, htl]
  simp

theorem tool_failure_is_key_lookup_witness :
    strContainsSub "Inkscape error: failed" "Inkscape" = true
      ∧ pyInTool "Inkscape" (extract_exiftool_metadata envToolErrTxt) = false
      ∧ check_image_for_forgery envToolErrTxt
        = (if softwareFlag envToolErrTxt then 40 else 0) :=
  ⟨by decide,
   (tool_failure_is_key_lookup envToolErrTxt "Inkscape error: failed" (by decide)).1,
   (tool_failure_is_key_lookup envToolErrTxt "Inkscape error: failed" (by decide)).2.2.2⟩

/-- C3: when the decode fails, the run aborts with a single top-level
failure (the ValueError raised by unpacking the error dictionary), no
report and hence no score is produced, and no further analysis work is
performed: the outcome is identical for any two environments with failing
decodes, whatever their metadata, tool, grayscale and ELA components. -/
theorem decode_failure_aborts_run (env env' : Env) (e e' : String)
    (h : env.decode = Except.error e) (h' : env'.decode = Except.error e') :
    analyze_image env
        = Except.error "ValueError: not enough values to unpack (expected 2, got 1)"
      ∧ analyze_image env = analyze_image env'
      ∧ ∀ r : Report, analyze_image env ≠ Except.ok r := by
  have herr : ∀ (env₀ : Env) (e₀ : String), env₀.decode = Except.error e₀ →
      analyze_image env₀
        = Except.error "ValueError: not enough values to unpack (expected 2, got 1)" := by
    intro env₀ e₀ h₀
    unfold analyze_image check_image_for_screenshot open_image
    rw [h₀]
  refine ⟨herr env e h, ?_, ?_⟩
  · rw [herr env e h, herr env' e' h']
  · intro r hr
    rw [herr env e h] at hr
    exact Except.noConfusion hr

theorem decode_failure_aborts_run_witness :
    analyze_image envDecodeFail
        = Except.error "ValueError: not enough values to unpack (expected 2, got 1)"
      ∧ analyze_image envDecodeFail = analyze_image envDecodeFailB :=
  ⟨(decode_failure_aborts_run envDecodeFail envDecodeFailB
      "corrupt" "cannot identify image file" rfl rfl).1,
   (decode_failure_aborts_run envDecodeFail envDecodeFailB
      "corrupt" "cannot identify image file" rfl rfl).2.1⟩

/-- C2 counterexample: an image whose EXIF extraction succeeds with tags of
the "Image" group ("Image Make", "Image Model" — names that start with the
prefix "Image") and whose 100 by 100 resolution matches no reference entry
is classified "Possible Screenshot (Missing or Minimal EXIF Data)" with
score 50, not "Original Image (Not a Screenshot)" with score 0: the test
of source line 93 is exact dictionary-key membership, and no key there
equals "Image". -/
theorem screenshot_exif_group_counterexample :
    ("Image".data).isPrefixOf ("Image Make".data) = true
      ∧ common_resolutions.any (resolutionMatches 100 100) = false
      ∧ envC2.exifRaw
        = Except.ok [("Image Make", "Canon"), ("Image Model", "EOS 5D")]
      ∧ check_image_for_screenshot envC2
        = Except.ok ("Possible Screenshot (Missing or Minimal EXIF Data)", 50)
      ∧ (("Possible Screenshot (Missing or Minimal EXIF Data)", 50) : String × ℕ)
        ≠ ("Original Image (Not a Screenshot)", 0) := by
  refine ⟨by decide, by decide, rfl, by decide, by decide⟩

/-- C2 amended: for every image that decodes, whose resolution matches no
reference entry, and whose EXIF dictionary contains a key exactly equal to
"Image" (exact-key membership, not group-prefix matching), the classifier
returns "Original Image (Not a Screenshot)" with score 0. -/
theorem screenshot_exact_image_key (env : Env) (img : ImageData)
    (hdec : env.decode = Except.ok img)
    (hres : common_resolutions.any (resolutionMatches img.width img.height) = false)
    (hkey : dictContains (extract_exif_metadata env) "Image" = true) :
    check_image_for_screenshot env =
      Except.ok ("Original Image (Not a Screenshot)", 0) := by
  unfold check_image_for_screenshot open_image
  rw [hdec]
  have hne : (extract_exif_metadata env).isEmpty = false := by
    cases hx : extract_exif_metadata env with
    | nil => rw [hx] at hkey; simp [dictContains, List.lookup] at hkey
    | cons a l => simp
  simp [hres, hne, hkey]

theorem screenshot_exact_image_key_witness :
    check_image_for_screenshot envC2Exact =
      Except.ok ("Original Image (Not a Screenshot)", 0) :=
  screenshot_exact_image_key envC2Exact plainImage rfl (by decide) (by decide)

/-- C8 counterexample: two distinct runs (one completing, one failing at
the save) both write the re-encode artifact to the same fixed path
"ela_image.jpg", and neither trace contains a delete operation — the path
is not unique per run and the artifact is never removed on any exit
path. -/
theorem ela_fixed_path_counterexample :
    (perform_ela_analysis envE1 90).1
        = [FileOp.save "ela_image.jpg", FileOp.openFile "ela_image.jpg"]
      ∧ (perform_ela_analysis envE2 90).1 = [FileOp.save "ela_image.jpg"]
      ∧ hasDelete (perform_ela_analysis envE1 90).1 = false
      ∧ hasDelete (perform_ela_analysis envE2 90).1 = false := by
  refine ⟨by decide, by decide, by decide, by decide⟩

/-- C8 amended: on every run and at every quality, every file operation of
the ELA step touches the one fixed path "ela_image.jpg", and no exit path
(decode failure, save failure, reopen failure, or success) ever deletes
it, so the artifact is shared across runs and persists past each run. -/
theorem ela_fixed_path_no_cleanup (env : Env) (quality : ℕ) :
    ((perform_ela_analysis env quality).1.all
        fun op => op.path == "ela_image.jpg") = true
      ∧ hasDelete (perform_ela_analysis env quality).1 = false := by
  unfold perform_ela_analysis
  cases open_image env with
  | error e => exact ⟨rfl, rfl⟩
  | ok original =>
    cases env.elaSave quality with
    | error e => exact ⟨rfl, rfl⟩
    | ok u =>
      cases env.elaReopen with
      | error e => exact ⟨rfl, rfl⟩
      | ok ela_image => exact ⟨rfl, rfl⟩

/-! ### Edge-map lemmas for C9 -/

theorem getD_mem_or_eq {α : Type} (l : List α) (n : ℕ) (d : α) :
    l.getD n d ∈ l ∨ l.getD n d = d := by
  induction l generalizing n with
  | nil => right; cases n <;> rfl
  | cons a t ih =>
    cases n with
    | zero => left; rw [List.getD_cons_zero]; exact List.mem_cons_self a t
    | succ k =>
      rw [List.getD_cons_succ]
      rcases ih k with h | h
      · left; exact List.mem_cons_of_mem a h
      · right; exact h

theorem pix_eq_zero_of_uniform {g : List (List ℕ)}
    (h : ∀ row ∈ g, ∀ v ∈ row, v = 0) (r c : ℕ) : pix g r c = 0 := by
  unfold pix
  rcases getD_mem_or_eq (g.getD r []) c 0 with hv | hv
  · rcases getD_mem_or_eq g r [] with hrow | hrow
    · exact h _ hrow _ hv
    · rw [hrow] at hv; exact absurd hv (List.not_mem_nil _)
  · exact hv

theorem gradMag_eq_zero_of_uniform {g : List (List ℕ)}
    (h : ∀ row ∈ g, ∀ v ∈ row, v = 0) (r c : ℕ) : gradMag g r c = 0 := by
  unfold gradMag
  simp [pix_eq_zero_of_uniform h, Nat.dist_self]

theorem weakAt_false_of_uniform {g : List (List ℕ)}
    (h : ∀ row ∈ g, ∀ v ∈ row, v = 0) (low r c : ℕ) :
    weakAt g low r c = false := by
  unfold weakAt
  rw [gradMag_eq_zero_of_uniform h]
  simp

theorem cannyMark_false_of_uniform {g : List (List ℕ)}
    (h : ∀ row ∈ g, ∀ v ∈ row, v = 0) (low high r c : ℕ) :
    cannyMark g low high r c = false := by
  unfold cannyMark
  have hstep : ∀ f : ℕ → ℕ → Bool, hysteresisExpand g low f = f := by
    intro f
    funext r' c'
    unfold hysteresisExpand
    rw [weakAt_false_of_uniform h]
    simp
  have hiter : ∀ n, (hysteresisExpand g low)^[n] (strongAt g high) = strongAt g high := by
    intro n
    induction n with
    | zero => rfl
    | succ k ih => rw [Function.iterate_succ_apply, hstep, ih]
  rw [hiter]
  unfold strongAt
  rw [gradMag_eq_zero_of_uniform h]
  simp

/-- C9: when the grayscale read succeeds on a rectangular source of row
width w, the returned edge map has the source height, every row has the
source width, every cell is binary (0 or 255 as cv2 renders edge flags),
and a uniform all-black source yields an all-zero (zero-edge) map.
The Canny-style detector itself is modelled from the spec, since
cv2.Canny is external library code. -/
theorem clone_edge_map_spec (env : Env) (g : List (List ℕ)) (w : ℕ)
    (hg : env.gray = some g) (hw : ∀ row ∈ g, row.length = w) :
    ∃ e, detect_clone_patterns env = Except.ok e
      ∧ e.length = g.length
      ∧ (∀ row ∈ e, row.length = w)
      ∧ (∀ row ∈ e, ∀ v ∈ row, v = 0 ∨ v = 255)
      ∧ ((∀ row ∈ g, ∀ v ∈ row, v = 0) → ∀ row ∈ e, ∀ v ∈ row, v = 0) := by
  refine ⟨canny g 100 200, ?_, ?_, ?_, ?_, ?_⟩
  · unfold detect_clone_patterns
    rw [hg]
  · simp [canny]
  · intro row hrow
    simp only [canny, List.mem_map, List.mem_range] at hrow
    obtain ⟨r, hr, hrow⟩ := hrow
    subst hrow
    simp only [List.length_map, List.length_range]
    cases g with
    | nil => exact absurd hr (Nat.not_lt_zero r)
    | cons row0 t =>
      rw [List.getD_cons_zero]
      exact hw row0 (List.mem_cons_self row0 t)
  · intro row hrow v hv
    simp only [canny, List.mem_map, List.mem_range] at hrow
    obtain ⟨r, hr, hrow⟩ := hrow
    subst hrow
    simp only [List.mem_map, List.mem_range] at hv
    obtain ⟨c, hc, hv⟩ := hv
    by_cases hm : cannyMark g 100 200 r c
    · rw [if_pos hm] at hv
      right; exact hv.symm
    · rw [if_neg hm] at hv
      left; exact hv.symm
  · intro hall row hrow v hv
    simp only [canny, List.mem_map, List.mem_range] at hrow
    obtain ⟨r, hr, hrow⟩ := hrow
    subst hrow
    simp only [List.mem_map, List.mem_range] at hv
    obtain ⟨c, hc, hv⟩ := hv
    rw [cannyMark_false_of_uniform hall] at hv
    rw [if_neg Bool.false_ne_true] at hv
    exact hv.symm

theorem clone_edge_map_spec_witness :
    (∃ e, detect_clone_patterns envC9 = Except.ok e
      ∧ e.length = gC9.length
      ∧ (∀ row ∈ e, row.length = 2)
      ∧ (∀ row ∈ e, ∀ v ∈ row, v = 0 ∨ v = 255)
      ∧ ((∀ row ∈ gC9, ∀ v ∈ row, v = 0) → ∀ row ∈ e, ∀ v ∈ row, v = 0))
    ∧ detect_clone_patterns envC9 = Except.ok [[0, 0], [0, 0]] :=
  ⟨clone_edge_map_spec envC9 gC9 2 rfl (by decide), by decide⟩

end Forensics
